import Mathlib

/-!
# Verification of the azure-quantum aio job lifecycle client

Shallow embedding of the three source files
`azure/quantum/aio/job/job.py` (namespace `JobPkg`),
`azure/quantum/aio/job.py` (namespace `JobMod`), and
`azure/quantum/aio/workspace.py` (namespace `WS`).

The remote collaborators (job-management API, blob storage, SAS issuance,
JSON decoding) are external to the client; they are modelled as parameters:
the stream of `JobDetails` successive refreshes receive is a list, and blob
download / SAS resolution / JSON parsing are function arguments.  The
observable remote effects of a call are collected in a trace of `Event`s.
Poll-wait arithmetic (Python floats) is embedded over `ℚ`; every concrete
value involved is far from the binary-float rounding error, so comparison
outcomes agree with the source.
-/

namespace AQ

/-- The fields of `azure.quantum._client.models.JobDetails` that the three
source files read: `id`, `status`, `output_data_uri`, `error_data`. -/
structure JobDetails where
  id : String
  status : String
  output_data_uri : String
  error_data : String
  deriving DecidableEq

/-- State of a `Job` object: both `Job.__init__` bodies set exactly
`self.workspace`, `self.details`, `self.id = job_details.id`,
`self.results = None`.  The workspace reference is opaque to the claims and
kept as a tag. -/
structure Job where
  workspace : String
  details : JobDetails
  id : String
  results : Option String
  deriving DecidableEq

/-- `Job.__init__(workspace, job_details)`. -/
def Job.init (workspace : String) (job_details : JobDetails) : Job :=
  { workspace := workspace
    details := job_details
    id := job_details.id
    results := none }

/-- `Job.has_completed`: status is one of the three terminal strings. -/
def Job.has_completed (j : Job) : Bool :=
  j.details.status == "Succeeded"
    || j.details.status == "Failed"
    || j.details.status == "Cancelled"

/-- `Job.refresh`: `self.details = (await self.workspace.get_job(self.id)).details`;
the freshly fetched details are the parameter `d`. -/
def Job.refresh (j : Job) (d : JobDetails) : Job :=
  { j with details := d }

/-- Observable remote/scheduler effects of the client.
`sleepCoroutine d` records the bare expression `asyncio.sleep(poll_wait)`
in `aio/job/job.py` (the coroutine is built and discarded: no `await`, so
no suspension happens); `sleep d` records `await asyncio.sleep(poll_wait)`
in `aio/job.py`, an actual cooperative suspension of duration `d`.
Likewise `sasUriCoroutine c b` records the bare expression
`self.workspace._get_linked_storage_sas_uri(c, b)` in `aio/job.py` line 94:
`_get_linked_storage_sas_uri` is `async def` (`aio/workspace.py` line 141)
and the call site does not `await` it, so only a coroutine object is
constructed and no remote call is issued; `sasCall c b` stands for an
actually executed SAS-resolution remote call, which this client therefore
never performs. -/
inductive Event where
  | refresh : Event
  | printProgress : Event
  | sleepCoroutine : ℚ → Event
  | sleep : ℚ → Event
  | sasCall : String → String → Event
  | sasUriCoroutine : String → String → Event
  | downloadBlob : String → Event
  | downloadData : String → Event
  deriving DecidableEq

/-- The backoff recomputation shared verbatim by both `wait_until_completed`
bodies: `poll_wait = max_poll_wait_secs if poll_wait >= max_poll_wait_secs
else poll_wait * 1.5`. -/
def nextPollWait (poll_wait max_poll_wait_secs : ℚ) : ℚ :=
  if poll_wait ≥ max_poll_wait_secs then max_poll_wait_secs else poll_wait * 1.5

/-- Outcome of a `wait_until_completed` call.  `noResponse` is a model
artifact: the finite list of service responses ran out while the loop still
needed a refresh (in Python the loop would keep polling). -/
inductive WaitOutcome where
  | completed : Job → WaitOutcome
  | timedOut : ℚ → WaitOutcome
  | noResponse : WaitOutcome
  deriving DecidableEq

namespace JobPkg

/-- Loop body of `wait_until_completed` in `aio/job/job.py`, lines 77-96:

```
while not self.has_completed():
    if timeout_secs is not None and total_time >= timeout_secs:
        raise TimeoutError(...)
    if print_progress:
        print(".", end="", flush=True)
    asyncio.sleep(poll_wait)          -- no await: coroutine discarded
    total_time += poll_wait
    await self.refresh()
    poll_wait = (max_poll_wait_secs if poll_wait >= max_poll_wait_secs
                 else poll_wait * 1.5)
```

`rs` is the stream of details successive `refresh` calls receive. -/
def waitLoop (max_poll_wait_secs : ℚ) (timeout_secs : Option ℚ)
    (print_progress : Bool) :
    Job → ℚ → ℚ → List JobDetails → List Event × WaitOutcome
  | j, poll_wait, total_time, rs =>
    if j.has_completed then ([], .completed j)
    else if (match timeout_secs with
        | none => false
        | some t => total_time ≥ t : Bool) then
      ([], .timedOut (timeout_secs.getD 0))
    else
      let evs := (if print_progress then [Event.printProgress] else [])
        ++ [Event.sleepCoroutine poll_wait]
      match rs with
      | [] => (evs, .noResponse)
      | d :: rest =>
        let (evs', out) := waitLoop max_poll_wait_secs timeout_secs
          print_progress (j.refresh d)
          (nextPollWait poll_wait max_poll_wait_secs)
          (total_time + poll_wait) rest
        (evs ++ [Event.refresh] ++ evs', out)

/-- `wait_until_completed` in `aio/job/job.py`: one unconditional
`await self.refresh()`, then the loop seeded with `poll_wait = 0.2`,
`total_time = 0`. -/
def wait_until_completed (max_poll_wait_secs : ℚ) (timeout_secs : Option ℚ)
    (print_progress : Bool) (j : Job) (rs : List JobDetails) :
    List Event × WaitOutcome :=
  match rs with
  | [] => ([], .noResponse)
  | d :: rest =>
    let (evs, out) := waitLoop max_poll_wait_secs timeout_secs print_progress
      (j.refresh d) 0.2 0 rest
    (Event.refresh :: evs, out)

end JobPkg

/-- `pat.isPrefixOf`-style check written out: does the list start with `pat`? -/
def pyStartsWith : List Char → List Char → Bool
  | _, [] => true
  | [], _ :: _ => false
  | c :: cs, p :: ps => c == p && pyStartsWith cs ps

/-- Python `s.find(sub)` on character lists: index of the first occurrence
of `sub`, or `-1` when there is none. -/
def pyFind (sub : List Char) : List Char → Int
  | [] => if pyStartsWith [] sub then 0 else -1
  | c :: t =>
    if pyStartsWith (c :: t) sub then 0
    else
      let r := pyFind sub t
      if r = -1 then -1 else r + 1

/-- The `query` component produced by `urllib.parse.urlparse`: `urlsplit`
first splits off the fragment at the first `#`, then the query is
everything after the first `?` of what remains (empty when there is no
`?`). -/
def urlQuery (s : String) : String :=
  let preFrag := s.toList.takeWhile fun c => c != '#'
  String.mk ((preFrag.dropWhile fun c => c != '?').drop 1)

/-- Outcome of a `get_results` call.  `noResponse`/`timedOut` propagate the
corresponding `wait_until_completed` outcomes.  `sasUriNotAwaited c b` is
the failure of the no-SAS-token branch of `aio/job.py`: `blob_uri` is the
un-awaited coroutine of `_get_linked_storage_sas_uri(c, b)`, so
`_download_blob(blob_uri)` hands a coroutine object instead of a URL
string to `BlobClient.from_blob_url`, which raises — the call fails with
no SAS resolution and no download executed. -/
inductive GetOutcome where
  | ok : String → Job → GetOutcome
  | runtimeError : String → String → GetOutcome
  | timedOut : ℚ → GetOutcome
  | noResponse : GetOutcome
  | sasUriNotAwaited : String → String → GetOutcome
  deriving DecidableEq

namespace JobMod

/-- Loop body of `wait_until_completed` in `aio/job.py`, lines 48-61: no
timeout parameter, unconditional progress print, and the sleep is awaited
(`await asyncio.sleep(poll_wait)`), then `await self.refresh()` and the
same backoff recomputation. -/
def waitLoop (max_poll_wait_secs : ℚ) :
    Job → ℚ → List JobDetails → List Event × WaitOutcome
  | j, poll_wait, rs =>
    if j.has_completed then ([], .completed j)
    else
      let evs := [Event.printProgress, Event.sleep poll_wait]
      match rs with
      | [] => (evs, .noResponse)
      | d :: rest =>
        let (evs', out) := waitLoop max_poll_wait_secs (j.refresh d)
          (nextPollWait poll_wait max_poll_wait_secs) rest
        (evs ++ [Event.refresh] ++ evs', out)

/-- `wait_until_completed(max_poll_wait_secs=30)` in `aio/job.py`: one
unconditional `await self.refresh()`, then the loop seeded with
`poll_wait = 0.2`. -/
def wait_until_completed (max_poll_wait_secs : ℚ) (j : Job)
    (rs : List JobDetails) : List Event × WaitOutcome :=
  match rs with
  | [] => ([], .noResponse)
  | d :: rest =>
    let (evs, out) := waitLoop max_poll_wait_secs (j.refresh d) 0.2 rest
    (Event.refresh :: evs, out)

/-- `get_results` in `aio/job.py`, lines 73-103:

```
if self.results is not None: return self.results
if not self.has_completed(): await self.wait_until_completed()
if not self.details.status == "Succeeded":
    raise RuntimeError(...status...error_data...)
url = urlparse(self.details.output_data_uri)
if url.query.find("se=") == -1:
    blob_client = BlobClient.from_blob_url(self.details.output_data_uri)
    blob_uri = self.workspace._get_linked_storage_sas_uri(
        blob_client.container_name, blob_client.blob_name)
    payload = await self._download_blob(blob_uri)
else:
    payload = await self._download_blob(self.details.output_data_uri)
result = json.loads(payload.decode("utf8"))
return result
```

External collaborators are parameters: `container_name`/`blob_name` model
`BlobClient.from_blob_url`'s parsing, `download` the blob read,
`json_loads` the decode.  The `sas_uri` parameter stands for the value
`_get_linked_storage_sas_uri` *would* return, but it is unused: the call
at line 94 is not awaited (`_get_linked_storage_sas_uri` is `async def`,
`aio/workspace.py` line 141), so `blob_uri` is an un-run coroutine object,
no SAS-resolution remote call is issued, and `_download_blob(blob_uri)`
fails when `BlobClient.from_blob_url` receives the coroutine instead of a
URL — the branch ends in `sasUriNotAwaited`, with no download.  Note also
the source never assigns `self.results`, so the returned job state carries
`results` unchanged. -/
def get_results (container_name blob_name : String → String)
    (_sas_uri : String → String → String) (download json_loads : String → String)
    (j : Job) (rs : List JobDetails) : List Event × GetOutcome :=
  match j.results with
  | some r => ([], .ok r j)
  | none =>
    let (evs, w) :=
      if j.has_completed then ([], WaitOutcome.completed j)
      else wait_until_completed 30 j rs
    match w with
    | .noResponse => (evs, .noResponse)
    | .timedOut t => (evs, .timedOut t)
    | .completed j' =>
      if j'.details.status ≠ "Succeeded" then
        (evs, .runtimeError j'.details.status j'.details.error_data)
      else
        let uri := j'.details.output_data_uri
        if pyFind "se=".toList (urlQuery uri).toList = -1 then
          let c := container_name uri
          let b := blob_name uri
          (evs ++ [Event.sasUriCoroutine c b], .sasUriNotAwaited c b)
        else
          (evs ++ [Event.downloadBlob uri], .ok (json_loads (download uri)) j')

end JobMod

namespace JobPkg

/-- `get_results(timeout_secs)` in `aio/job/job.py`, lines 98-123: memo
check, wait with the given timeout when not completed, status gate, then
`payload = await self.download_data(self.details.output_data_uri)` (from
`base_job.py`, modelled by the parameter `download_data`) and
`results = json.loads(payload.decode("utf8")); return results` — a local
variable; `self.results` is never assigned. -/
def get_results (timeout_secs : ℚ) (download_data json_loads : String → String)
    (j : Job) (rs : List JobDetails) : List Event × GetOutcome :=
  match j.results with
  | some r => ([], .ok r j)
  | none =>
    let (evs, w) :=
      if j.has_completed then ([], WaitOutcome.completed j)
      else wait_until_completed 30 (some timeout_secs) true j rs
    match w with
    | .noResponse => (evs, .noResponse)
    | .timedOut t => (evs, .timedOut t)
    | .completed j' =>
      if j'.details.status ≠ "Succeeded" then
        (evs, .runtimeError j'.details.status j'.details.error_data)
      else
        let uri := j'.details.output_data_uri
        (evs ++ [Event.downloadData uri], .ok (json_loads (download_data uri)) j')

end JobPkg

/-- Number of blob-download effects (either variant) in a trace. -/
def downloadCount : List Event → ℕ
  | [] => 0
  | .downloadBlob _ :: t => downloadCount t + 1
  | .downloadData _ :: t => downloadCount t + 1
  | _ :: t => downloadCount t

/-- Number of SAS-resolution calls in a trace. -/
def sasCount : List Event → ℕ
  | [] => 0
  | .sasCall _ _ :: t => sasCount t + 1
  | _ :: t => sasCount t

/-- Number of actual cooperative suspensions (`await asyncio.sleep`) in a
trace. -/
def awaitedSleepCount : List Event → ℕ
  | [] => 0
  | .sleep _ :: t => awaitedSleepCount t + 1
  | _ :: t => awaitedSleepCount t

/-- Number of sleep coroutines built but never awaited in a trace. -/
def droppedSleepCount : List Event → ℕ
  | [] => 0
  | .sleepCoroutine _ :: t => droppedSleepCount t + 1
  | _ :: t => droppedSleepCount t

/-- The sequence of intended poll intervals of a trace: durations of sleep
effects, whether awaited (`sleep`) or merely constructed
(`sleepCoroutine`), in order. -/
def pollIntervals : List Event → List ℚ
  | [] => []
  | .sleepCoroutine d :: t => d :: pollIntervals t
  | .sleep d :: t => d :: pollIntervals t
  | _ :: t => pollIntervals t

/-- The value of `poll_wait` before the `n`-th sleep of a
`wait_until_completed` execution: `n` applications of the source's backoff
recomputation to the seed `0.2`. -/
def pollWaitSeq (max_poll_wait_secs : ℚ) (n : ℕ) : ℚ :=
  (fun w => nextPollWait w max_poll_wait_secs)^[n] 0.2

/-- Spec-side reading of the pre-signed-URI test: the query component of
the URI contains the characters `se=` as a substring. -/
def hasSASToken (uri : String) : Prop :=
  ∃ a b, (urlQuery uri).toList = a ++ "se=".toList ++ b

/-- A job-details snapshot still in progress. -/
def waitingDetails : JobDetails :=
  { id := "job-0", status := "Waiting", output_data_uri := "", error_data := "" }

/-- A succeeded snapshot whose output URI already carries a SAS token
(`se=` in the query). -/
def succeededDetails : JobDetails :=
  { id := "job-0", status := "Succeeded",
    output_data_uri := "https://acct.blob.core.windows.net/c/b?sv=1&se=sig",
    error_data := "" }

/-- A failed snapshot with a server-provided error payload. -/
def failedDetails : JobDetails :=
  { id := "job-0", status := "Failed", output_data_uri := "",
    error_data := "compilation error" }

/-- A freshly constructed job still in progress. -/
def waitingJob : Job := Job.init "ws" waitingDetails

/-- A freshly constructed job whose details already show success. -/
def succeededJob : Job := Job.init "ws" succeededDetails

/-- A freshly constructed job whose details already show failure. -/
def failedJob : Job := Job.init "ws" failedDetails

/-- A succeeded snapshot whose output URI carries no SAS token (bare blob
path, no query). -/
def succeededBareDetails : JobDetails :=
  { id := "job-0", status := "Succeeded",
    output_data_uri := "https://acct.blob.core.windows.net/c/b",
    error_data := "" }

/-- A freshly constructed succeeded job with a bare output URI. -/
def succeededBareJob : Job := Job.init "ws" succeededBareDetails

/-- A succeeded snapshot whose query contains `se=` only inside another
parameter (`?rose=1`). -/
def roseDetails : JobDetails :=
  { id := "job-0", status := "Succeeded",
    output_data_uri := "https://host/p?rose=1", error_data := "" }

/-- A freshly constructed succeeded job with the `?rose=1` query. -/
def roseJob : Job := Job.init "ws" roseDetails

/-- A succeeded snapshot with `se=` in the path but no query at all. -/
def pathSeDetails : JobDetails :=
  { id := "job-0", status := "Succeeded",
    output_data_uri := "https://host/se=x/blob", error_data := "" }

/-- A freshly constructed succeeded job with `se=` only in the path. -/
def pathSeJob : Job := Job.init "ws" pathSeDetails

namespace WS

/-- Characters of the regex class `[a-fA-F0-9-]` (group 1, the subscription
ID). -/
def isHexDash (c : Char) : Bool :=
  ('0' ≤ c && c ≤ '9') || ('a' ≤ c && c ≤ 'f') || ('A' ≤ c && c ≤ 'F')
    || c == '-'

/-- Python regex `\s` (ASCII range): space, tab, newline, carriage return,
vertical tab, form feed. -/
def pyIsSpace (c : Char) : Bool :=
  c == ' ' || c == '\t' || c == '\n' || c == '\r' || c == '\x0b' || c == '\x0c'

/-- Characters of the regex class `[^\s/]` (groups 2 and 3). -/
def isNonSpaceSlash (c : Char) : Bool :=
  !pyIsSpace c && c != '/'

/-- Case-insensitive literal matching (re.IGNORECASE): consume `pat` from
the front of `l`, returning the rest, or `none` if it does not match. -/
def expectCI : List Char → List Char → Option (List Char)
  | [], l => some l
  | _ :: _, [] => none
  | p :: ps, c :: cs => if p.toLower == c.toLower then expectCI ps cs else none

/-- The anchored, case-insensitive resource-ID regex of
`Workspace.__init__` (`aio/workspace.py` line 81):

```
^/subscriptions/([a-fA-F0-9-]*)/resourceGroups/([^\s/]*)
 /providers/Microsoft\.Quantum/Workspaces/([^\s/]*)$
```

Each starred class excludes `/`, and each following literal starts with
`/` (or the anchor `$`), so the greedy maximal runs are forced and the
match is deterministic.  Python's `$` also matches just before one final
newline, hence the `['\n']` case. -/
def matchResourceId (s : String) : Option (String × String × String) := do
  let l1 ← expectCI "/subscriptions/".toList s.toList
  let sub := l1.takeWhile isHexDash
  let l2 ← expectCI "/resourceGroups/".toList (l1.dropWhile isHexDash)
  let rg := l2.takeWhile isNonSpaceSlash
  let l3 ← expectCI "/providers/Microsoft.Quantum/Workspaces/".toList
    (l2.dropWhile isNonSpaceSlash)
  let nm := l3.takeWhile isNonSpaceSlash
  let rest := l3.dropWhile isNonSpaceSlash
  if rest = [] ∨ rest = ['\n'] then
    return (String.mk sub, String.mk rg, String.mk nm)
  else none

/-- Python truthiness of an optional string argument: `not x` is true for
`None` and for the empty string. -/
def truthy : Option String → Bool
  | none => false
  | some s => s != ""

/-- `"".join(location.split()).lower()`: drop every whitespace character
and lowercase the rest. -/
def normalizeLocation (s : String) : String :=
  String.mk ((s.toList.filter fun c => !pyIsSpace c).map Char.toLower)

/-- The workspace state assembled by `Workspace.__init__`: `self.name`,
`self.resource_group`, `self.subscription_id`, `self.storage`,
`self.location`.  The credential and the `QuantumClient` handle are
external collaborators and not part of the model. -/
structure Workspace where
  name : String
  resource_group : String
  subscription_id : String
  storage : Option String
  location : String
  deriving DecidableEq

/-- `Workspace.__init__` (`aio/workspace.py` lines 67-141): when
`resource_id` is given and matches the pattern, its three groups override
`subscription_id`, `resource_group`, `name`; then missing/empty components
or a missing/empty `location` raise `ValueError`; otherwise the fields are
stored with the location normalized. -/
def Workspace.init (subscription_id resource_group name storage resource_id
    location : Option String) : Except String Workspace :=
  let (sub, rg, nm) :=
    match resource_id with
    | some rid =>
      match matchResourceId rid with
      | some (s, r, n) => (some s, some r, some n)
      | none => (subscription_id, resource_group, name)
    | none => (subscription_id, resource_group, name)
  if !truthy sub || !truthy rg || !truthy nm then
    .error "Azure Quantum workspace not fully specified."
  else if !truthy location then
    .error "Azure Quantum workspace does not have an associated location."
  else
    .ok
      { name := nm.getD ""
        resource_group := rg.getD ""
        subscription_id := sub.getD ""
        storage := storage
        location := normalizeLocation (location.getD "") }

/-- The (subscription, resource group, name) triple after the
`resource_id` override step, as the spec's notion of the "resolved"
workspace identity. -/
def resolvedTriple (subscription_id resource_group name resource_id :
    Option String) : Option String × Option String × Option String :=
  match resource_id with
  | some rid =>
    match matchResourceId rid with
    | some (s, r, n) => (some s, some r, some n)
    | none => (subscription_id, resource_group, name)
  | none => (subscription_id, resource_group, name)

/-- The workspace identity (subscription, resource group, name) of a
construction outcome. -/
def identityOf (w : Except String Workspace) :
    Except String (String × String × String) :=
  w.map fun ws => (ws.subscription_id, ws.resource_group, ws.name)

end WS

/-- Spec-side completeness of a resolved (subscription, resource group,
name) triple: all three components present and non-empty. -/
def tripleComplete (t : Option String × Option String × Option String) :
    Bool :=
  WS.truthy t.1 && WS.truthy t.2.1 && WS.truthy t.2.2

end AQ

/-- C9: `refresh` replaces only the cached `details` field, wholesale, with
the freshly fetched details; `id`, `workspace` and the `results` memo are
untouched (both source files share this one-line body). -/
theorem c9_refresh_replaces_only_details (j : AQ.Job) (d : AQ.JobDetails) :
    (j.refresh d).details = d ∧ (j.refresh d).id = j.id ∧
      (j.refresh d).workspace = j.workspace ∧ (j.refresh d).results = j.results :=
  ⟨rfl, rfl, rfl, rfl⟩

/-- C5: on a job whose terminal status is not `Succeeded`, both
`get_results` implementations fail with an error carrying that status and
the server-provided `error_data`, with an empty remote trace: no blob
download and no SAS-resolution call. -/
theorem c5_non_succeeded_terminal_fails_without_download
    (timeout_secs : ℚ) (download_data json_loads : String → String)
    (container_name blob_name : String → String)
    (sas_uri : String → String → String) (download json_loads2 : String → String)
    (j : AQ.Job) (rs rs2 : List AQ.JobDetails)
    (hres : j.results = none) (hterm : j.has_completed = true)
    (hst : j.details.status ≠ "Succeeded") :
    AQ.JobPkg.get_results timeout_secs download_data json_loads j rs
      = ([], .runtimeError j.details.status j.details.error_data) ∧
    AQ.JobMod.get_results container_name blob_name sas_uri download json_loads2 j rs2
      = ([], .runtimeError j.details.status j.details.error_data) := by
  constructor
  · unfold AQ.JobPkg.get_results
    rw [hres]
    simp [hterm, hst]
  · unfold AQ.JobMod.get_results
    rw [hres]
    simp [hterm, hst]

/-- Witness for C5: a job already in status `Failed`. -/
theorem c5_witness :
    AQ.JobPkg.get_results 300 (fun _ => "") (fun s => s) AQ.failedJob []
      = ([], .runtimeError "Failed" "compilation error") ∧
    AQ.JobMod.get_results (fun _ => "c") (fun _ => "b") (fun c _ => c)
        (fun _ => "") (fun s => s) AQ.failedJob []
      = ([], .runtimeError "Failed" "compilation error") :=
  c5_non_succeeded_terminal_fails_without_download 300 (fun _ => "")
    (fun s => s) (fun _ => "c") (fun _ => "b") (fun c _ => c) (fun _ => "")
    (fun s => s) AQ.failedJob [] [] rfl (by decide) (by decide)

/-- C8: a resource-ID string matching the fixed pattern yields the same
workspace identity as supplying the three extracted components explicitly,
and a malformed resource ID with no explicit triple fails construction. -/
theorem c8_resource_id_equivalent_to_explicit_triple :
    (∀ rid sub rg nm storage location,
        AQ.WS.matchResourceId rid = some (sub, rg, nm) →
        AQ.WS.identityOf
            (AQ.WS.Workspace.init none none none storage (some rid) location)
          = AQ.WS.identityOf
              (AQ.WS.Workspace.init (some sub) (some rg) (some nm) storage
                none location)) ∧
    (∀ rid storage location,
        AQ.WS.matchResourceId rid = none →
        ∃ e, AQ.WS.Workspace.init none none none storage (some rid) location
          = .error e) := by
  constructor
  · intro rid sub rg nm storage location hm
    unfold AQ.WS.Workspace.init
    simp only [hm]
  · intro rid storage location hm
    unfold AQ.WS.Workspace.init
    simp only [hm, AQ.WS.truthy]
    exact ⟨_, rfl⟩

/-- Witness for C8: a concrete matching resource ID, and a concrete
malformed one. -/
theorem c8_witness :
    (AQ.WS.identityOf (AQ.WS.Workspace.init none none none none
        (some "/subscriptions/0a1b-2c3d/resourceGroups/rg-1/providers/Microsoft.Quantum/Workspaces/ws-1")
        (some "West US"))
      = AQ.WS.identityOf (AQ.WS.Workspace.init (some "0a1b-2c3d")
          (some "rg-1") (some "ws-1") none none (some "West US"))) ∧
    (∃ e, AQ.WS.Workspace.init none none none none (some "not-a-resource-id")
        (some "westus") = .error e) :=
  ⟨c8_resource_id_equivalent_to_explicit_triple.1
      "/subscriptions/0a1b-2c3d/resourceGroups/rg-1/providers/Microsoft.Quantum/Workspaces/ws-1"
      "0a1b-2c3d" "rg-1" "ws-1" none (some "West US") (by decide),
    c8_resource_id_equivalent_to_explicit_triple.2 "not-a-resource-id" none
      (some "westus") (by decide)⟩

/-- C7: `Workspace.__init__` raises a configuration error exactly when the
resolved (subscription, resource group, name) triple — after the
resource-ID override — is incomplete (a component missing or empty), or no
location is supplied; with a complete triple and a location present it
succeeds. -/
theorem c7_init_fails_iff_incomplete_or_no_location
    (subscription_id resource_group name storage resource_id location :
      Option String) :
    (∃ e, AQ.WS.Workspace.init subscription_id resource_group name storage
        resource_id location = .error e)
      ↔ (AQ.tripleComplete
            (AQ.WS.resolvedTriple subscription_id resource_group name
              resource_id) = false
          ∨ AQ.WS.truthy location = false) := by
  unfold AQ.WS.Workspace.init AQ.WS.resolvedTriple AQ.tripleComplete
  rcases resource_id with _ | rid
  · cases hs : AQ.WS.truthy subscription_id <;>
      cases hr : AQ.WS.truthy resource_group <;>
        cases hn : AQ.WS.truthy name <;>
          cases hl : AQ.WS.truthy location <;>
            simp [hs, hr, hn, hl]
  · rcases hm : AQ.WS.matchResourceId rid with _ | ⟨s, r, n⟩
    · simp only [hm]
      cases hs : AQ.WS.truthy subscription_id <;>
        cases hr : AQ.WS.truthy resource_group <;>
          cases hn : AQ.WS.truthy name <;>
            cases hl : AQ.WS.truthy location <;>
              simp [hs, hr, hn, hl]
    · simp only [hm]
      cases hs : AQ.WS.truthy (some s) <;>
        cases hr : AQ.WS.truthy (some r) <;>
          cases hn : AQ.WS.truthy (some n) <;>
            cases hl : AQ.WS.truthy location <;>
              simp [hs, hr, hn, hl]

open AQ

/-- `pyStartsWith l pat` decides whether `pat` is a prefix of `l`. -/
theorem pyStartsWith_iff (l pat : List Char) :
    pyStartsWith l pat = true ↔ ∃ t, l = pat ++ t := by
  induction pat generalizing l with
  | nil => simp [pyStartsWith]
  | cons p ps ih =>
    cases l with
    | nil => simp [pyStartsWith]
    | cons c cs => simp [pyStartsWith, ih]

/-- `pyFind` never returns anything below `-1`. -/
theorem pyFind_ge_neg_one (sub l : List Char) : -1 ≤ pyFind sub l := by
  induction l with
  | nil =>
    simp only [pyFind]
    split
    · omega
    · omega
  | cons c t ih =>
    simp only [pyFind]
    split
    · omega
    · split
      · omega
      · omega

/-- Python's `find` convention: the result differs from `-1` exactly when
the pattern occurs as a contiguous substring. -/
theorem pyFind_ne_neg_one_iff (sub l : List Char) :
    pyFind sub l ≠ -1 ↔ ∃ a b, l = a ++ sub ++ b := by
  induction l with
  | nil =>
    constructor
    · intro h
      by_cases hp : pyStartsWith [] sub = true
      · rcases (pyStartsWith_iff [] sub).mp hp with ⟨t, ht⟩
        rcases List.append_eq_nil.mp ht.symm with ⟨h1, _⟩
        exact ⟨[], [], by simp [h1]⟩
      · exact absurd (by simp [pyFind, hp]) h
    · rintro ⟨a, b, hab⟩
      rcases List.append_eq_nil.mp hab.symm with ⟨h1, _⟩
      rcases List.append_eq_nil.mp h1 with ⟨_, h3⟩
      subst h3
      simp [pyFind, pyStartsWith]
  | cons c t ih =>
    constructor
    · intro h
      by_cases hp : pyStartsWith (c :: t) sub = true
      · rcases (pyStartsWith_iff _ _).mp hp with ⟨tl, htl⟩
        exact ⟨[], tl, by simpa using htl⟩
      · have h2 : pyFind sub t ≠ -1 := by
          intro h3
          exact h (by simp [pyFind, hp, h3])
        rcases ih.mp h2 with ⟨a, b, hab⟩
        exact ⟨c :: a, b, by simp [hab]⟩
    · rintro ⟨a, b, hab⟩
      cases a with
      | nil =>
        have hp : pyStartsWith (c :: t) sub = true :=
          (pyStartsWith_iff _ _).mpr ⟨b, by simpa using hab⟩
        simp [pyFind, hp]
      | cons c' a' =>
        have hc : c = c' ∧ t = a' ++ (sub ++ b) := by simpa using hab
        have h2 : pyFind sub t ≠ -1 := ih.mpr ⟨a', b, by simp [hc.2]⟩
        have hge := pyFind_ge_neg_one sub t
        simp only [pyFind]
        split <;> omega

/-- The spec-side substring reading of the `se=` test agrees with the
code's `url.query.find("se=") != -1`. -/
theorem hasSASToken_iff_find (uri : String) :
    hasSASToken uri ↔ pyFind "se=".toList (urlQuery uri).toList ≠ -1 :=
  (pyFind_ne_neg_one_iff _ _).symm

/-- C6 (code bug): the no-SAS-token branch of `get_results` never executes
the SAS-resolution call it was meant to make: `aio/job.py` line 94 calls
`_get_linked_storage_sas_uri` without `await` even though the branch's own
comment says "get sas url from service" and the method's docstring says
"Calls the service" — so on a succeeded job with a bare output URI zero
SAS-resolution calls are issued, zero downloads happen, and the call fails
when the un-run coroutine reaches `BlobClient.from_blob_url`; the
`se=`-present half of the claim does hold (direct download, no SAS
call). -/
theorem c6_missing_await_on_sas_resolution :
    (JobMod.get_results (fun _ => "c") (fun _ => "b") (fun c b => c ++ "/" ++ b)
        (fun _ => "payload") (fun s => s) succeededJob []
      = ([Event.downloadBlob "https://acct.blob.core.windows.net/c/b?sv=1&se=sig"],
          .ok "payload" succeededJob)) ∧
    (JobMod.get_results (fun _ => "c") (fun _ => "b") (fun c b => c ++ "/" ++ b)
        (fun _ => "payload") (fun s => s) succeededBareJob []
      = ([Event.sasUriCoroutine "c" "b"], .sasUriNotAwaited "c" "b")) ∧
    sasCount (JobMod.get_results (fun _ => "c") (fun _ => "b")
        (fun c b => c ++ "/" ++ b) (fun _ => "payload") (fun s => s)
        succeededBareJob []).1 = 0 ∧
    downloadCount (JobMod.get_results (fun _ => "c") (fun _ => "b")
        (fun c b => c ++ "/" ++ b) (fun _ => "payload") (fun s => s)
        succeededBareJob []).1 = 0 := by
  refine ⟨?_, ?_, ?_, ?_⟩ <;> with_unfolding_all decide

/-- Counterexample to C10: a URI whose query lacks `se=` (here `se=`
appears only in the path) does not trigger SAS resolution — the call's
trace contains zero executed SAS-resolution calls, and the call fails with
`sasUriNotAwaited` instead of downloading the resolved URI. -/
theorem c10_counterexample :
    sasCount (JobMod.get_results (fun _ => "c") (fun _ => "b")
        (fun c b => c ++ "/" ++ b) (fun _ => "payload") (fun s => s)
        pathSeJob []).1 = 0 ∧
    (JobMod.get_results (fun _ => "c") (fun _ => "b") (fun c b => c ++ "/" ++ b)
        (fun _ => "payload") (fun s => s) pathSeJob []).2
      = .sasUriNotAwaited "c" "b" := by
  refine ⟨?_, ?_⟩ <;> with_unfolding_all decide

/-- C10 amended: the pre-signed-URI test is a substring search for `se=`
restricted to the query component: a query containing `se=` anywhere (even
inside another parameter such as `?rose=1`) yields a direct blob download
with no SAS-resolution call; a query lacking it (even with `se=` in the
path) selects the SAS-resolution branch, which — the
`_get_linked_storage_sas_uri` coroutine never being awaited — issues no
SAS call and fails before any download.  In particular no execution of
this `get_results` ever performs a SAS-resolution call. -/
theorem c10_amended_query_substring_selects_branch
    (container_name blob_name : String → String)
    (sas_uri : String → String → String) (download json_loads : String → String)
    (j : Job) (rs : List JobDetails)
    (hres : j.results = none) (hst : j.details.status = "Succeeded") :
    sasCount (JobMod.get_results container_name blob_name sas_uri download
        json_loads j rs).1 = 0 ∧
    (hasSASToken j.details.output_data_uri →
      JobMod.get_results container_name blob_name sas_uri download json_loads
          j rs
        = ([Event.downloadBlob j.details.output_data_uri],
            .ok (json_loads (download j.details.output_data_uri)) j)) ∧
    (¬ hasSASToken j.details.output_data_uri →
      JobMod.get_results container_name blob_name sas_uri download json_loads
          j rs
        = ([Event.sasUriCoroutine (container_name j.details.output_data_uri)
              (blob_name j.details.output_data_uri)],
            .sasUriNotAwaited (container_name j.details.output_data_uri)
              (blob_name j.details.output_data_uri))) := by
  have hterm : j.has_completed = true := by simp [Job.has_completed, hst]
  refine ⟨?_, ?_, ?_⟩
  · by_cases hfind : pyFind "se=".toList
        (urlQuery j.details.output_data_uri).toList = -1
    · have hfind2 : pyFind ['s', 'e', '=']
          (urlQuery j.details.output_data_uri).data = -1 := by simpa using hfind
      unfold JobMod.get_results
      rw [hres]
      simp [hterm, hst, hfind2, sasCount]
    · have hfind2 : ¬ pyFind ['s', 'e', '=']
          (urlQuery j.details.output_data_uri).data = -1 := by simpa using hfind
      unfold JobMod.get_results
      rw [hres]
      simp [hterm, hst, hfind2, sasCount]
  · intro hsas
    have hfind := (hasSASToken_iff_find j.details.output_data_uri).mp hsas
    have hfind2 : ¬ pyFind ['s', 'e', '=']
        (urlQuery j.details.output_data_uri).data = -1 := by simpa using hfind
    unfold JobMod.get_results
    rw [hres]
    simp [hterm, hst, hfind2]
  · intro hsas
    have hfind : pyFind "se=".toList (urlQuery j.details.output_data_uri).toList
        = -1 := by
      by_contra h
      exact hsas ((hasSASToken_iff_find j.details.output_data_uri).mpr h)
    have hfind2 : pyFind ['s', 'e', '=']
        (urlQuery j.details.output_data_uri).data = -1 := by simpa using hfind
    unfold JobMod.get_results
    rw [hres]
    simp [hterm, hst, hfind2]

/-- Witness for the amended C10: the query `?rose=1` contains `se=` inside
another parameter, so the blob downloads directly; `se=` only in the path
selects the SAS branch, which fails without issuing a SAS call. -/
theorem c10_amended_witness :
    (JobMod.get_results (fun _ => "c") (fun _ => "b") (fun c b => c ++ "/" ++ b)
        (fun _ => "payload") (fun s => s) roseJob []
      = ([Event.downloadBlob "https://host/p?rose=1"], .ok "payload" roseJob)) ∧
    (JobMod.get_results (fun _ => "c") (fun _ => "b") (fun c b => c ++ "/" ++ b)
        (fun _ => "payload") (fun s => s) pathSeJob []
      = ([Event.sasUriCoroutine "c" "b"], .sasUriNotAwaited "c" "b")) :=
  ⟨(c10_amended_query_substring_selects_branch (fun _ => "c") (fun _ => "b")
      (fun c b => c ++ "/" ++ b) (fun _ => "payload") (fun s => s)
      roseJob [] rfl rfl).2.1 ((hasSASToken_iff_find _).mpr (by decide)),
    (c10_amended_query_substring_selects_branch (fun _ => "c") (fun _ => "b")
      (fun c b => c ++ "/" ++ b) (fun _ => "payload") (fun s => s)
      pathSeJob [] rfl rfl).2.2
      (fun h => (hasSASToken_iff_find _).mp h (by decide))⟩

/-- C4: in `aio/job/job.py`, whenever the job is not terminal and the
accumulated intended sleep time has reached a configured timeout budget,
the loop fails with a `TimeoutError` carrying the budget, emitting no
further effect (no sleep, no refresh); in particular a zero budget fails
right after the first refresh when the job is not yet complete. -/
theorem c4_timeout_fails_before_further_sleep_or_refresh :
    (∀ (max_poll_wait_secs : ℚ) (print_progress : Bool) (j : Job)
        (poll_wait total_time t : ℚ) (rs : List JobDetails),
        j.has_completed = false → t ≤ total_time →
        JobPkg.waitLoop max_poll_wait_secs (some t) print_progress j poll_wait
            total_time rs = ([], .timedOut t)) ∧
    (∀ (max_poll_wait_secs : ℚ) (print_progress : Bool) (j : Job)
        (d : JobDetails) (rs : List JobDetails),
        (j.refresh d).has_completed = false →
        JobPkg.wait_until_completed max_poll_wait_secs (some 0) print_progress
            j (d :: rs) = ([Event.refresh], .timedOut 0)) := by
  have part1 : ∀ (max_poll_wait_secs : ℚ) (print_progress : Bool) (j : Job)
      (poll_wait total_time t : ℚ) (rs : List JobDetails),
      j.has_completed = false → t ≤ total_time →
      JobPkg.waitLoop max_poll_wait_secs (some t) print_progress j poll_wait
          total_time rs = ([], .timedOut t) := by
    intro maxP pp j pw total t rs hnc ht
    unfold JobPkg.waitLoop
    simp [hnc, ht, ge_iff_le]
  refine ⟨part1, ?_⟩
  intro maxP pp j d rs hnc
  have h1 := part1 maxP pp (j.refresh d) 0.2 0 0 rs hnc le_rfl
  unfold JobPkg.wait_until_completed
  simp only [h1]

/-- Witness for C4: a still-waiting job with the budget already consumed,
and the zero-budget case right after the first refresh. -/
theorem c4_witness :
    (JobPkg.waitLoop 30 (some 0) true waitingJob 0.2 0 [] = ([], .timedOut 0)) ∧
    (JobPkg.wait_until_completed 30 (some 0) true waitingJob [waitingDetails]
      = ([Event.refresh], .timedOut 0)) :=
  ⟨c4_timeout_fails_before_further_sleep_or_refresh.1 30 true waitingJob
      0.2 0 0 [] (by decide) le_rfl,
    c4_timeout_fails_before_further_sleep_or_refresh.2 30 true waitingJob
      waitingDetails [] (by decide)⟩

/-- C3 (code bug): in `aio/job/job.py` the polling loop evaluates
`asyncio.sleep(poll_wait)` without `await`: on a run that iterates twice,
two sleep coroutines are built and discarded and no cooperative suspension
ever happens, while the otherwise-identical loop of `aio/job.py`
(`await asyncio.sleep(poll_wait)`) suspends twice. -/
theorem c3_sleep_never_awaited :
    droppedSleepCount (JobPkg.wait_until_completed 30 none true waitingJob
        [waitingDetails, waitingDetails, succeededDetails]).1 = 2 ∧
    awaitedSleepCount (JobPkg.wait_until_completed 30 none true waitingJob
        [waitingDetails, waitingDetails, succeededDetails]).1 = 0 ∧
    awaitedSleepCount (JobMod.wait_until_completed 30 waitingJob
        [waitingDetails, waitingDetails, succeededDetails]).1 = 2 := by
  refine ⟨?_, ?_, ?_⟩ <;>
    norm_num [JobPkg.wait_until_completed, JobPkg.waitLoop,
      JobMod.wait_until_completed, JobMod.waitLoop, Job.has_completed,
      Job.refresh, Job.init, nextPollWait, waitingJob, waitingDetails,
      succeededDetails, droppedSleepCount, awaitedSleepCount,
      show ("Waiting" : String) ≠ "Succeeded" from by decide,
      show ("Waiting" : String) ≠ "Failed" from by decide,
      show ("Waiting" : String) ≠ "Cancelled" from by decide]

/-- C1 (code bug): neither `get_results` body ever assigns `self.results`:
on a succeeded job the call returns the decoded payload but the job state
comes back with `results` still `none` (the same state it started in), and
the call performs one blob download, so a second call repeats the download
instead of returning a memo. -/
theorem c1_results_memo_never_populated :
    (JobMod.get_results (fun _ => "c") (fun _ => "b") (fun c b => c ++ "/" ++ b)
        (fun _ => "payload") (fun s => s) succeededJob []
      = ([Event.downloadBlob "https://acct.blob.core.windows.net/c/b?sv=1&se=sig"],
          .ok "payload" succeededJob)) ∧
    downloadCount (JobMod.get_results (fun _ => "c") (fun _ => "b")
        (fun c b => c ++ "/" ++ b) (fun _ => "payload") (fun s => s)
        succeededJob []).1 = 1 ∧
    (JobPkg.get_results 300 (fun _ => "payload") (fun s => s) succeededJob []
      = ([Event.downloadData "https://acct.blob.core.windows.net/c/b?sv=1&se=sig"],
          .ok "payload" succeededJob)) ∧
    downloadCount (JobPkg.get_results 300 (fun _ => "payload") (fun s => s)
        succeededJob []).1 = 1 ∧
    succeededJob.results = none := by
  refine ⟨?_, ?_, ?_, ?_, rfl⟩ <;> with_unfolding_all decide

/-- Counterexample to C2: with the default ceiling 30 and seed 0.2, the
recomputation `max if poll_wait >= max else poll_wait * 1.5` lets the
fourteenth interval overshoot the ceiling (0.2·1.5¹³ = 1594323/40960 ≈
38.92 > 30) before the next interval drops back to 30 — so the interval
sequence both exceeds `max_poll_wait_secs` and fails to be monotonically
non-decreasing, and the recomputation is not `min(poll_wait * 1.5, max)`,
which would have produced 30 at that point. -/
theorem c2_counterexample :
    pollIntervals (JobPkg.wait_until_completed 30 none true waitingJob
        (List.replicate 15 waitingDetails)).1
      = [1/5, 3/10, 9/20, 27/40, 81/80, 243/160, 729/320, 2187/640,
          6561/1280, 19683/2560, 59049/5120, 177147/10240, 531441/20480,
          1594323/40960, 30] ∧
    (30 : ℚ) < 1594323/40960 := by
  constructor
  · norm_num [JobPkg.wait_until_completed, JobPkg.waitLoop, pollIntervals,
      nextPollWait, Job.has_completed, Job.refresh, Job.init, waitingJob,
      waitingDetails, List.replicate,
      show ("Waiting" : String) ≠ "Succeeded" from by decide,
      show ("Waiting" : String) ≠ "Failed" from by decide,
      show ("Waiting" : String) ≠ "Cancelled" from by decide]
  · norm_num

/-- `pollIntervals` distributes over concatenation of traces. -/
theorem pollIntervals_append (a b : List Event) :
    pollIntervals (a ++ b) = pollIntervals a ++ pollIntervals b := by
  induction a with
  | nil => rfl
  | cons e t ih => cases e <;> simp [pollIntervals, ih]

/-- The sleep durations a `waitLoop` run emits are successive iterates of
the source's backoff recomputation applied to the entry `poll_wait`. -/
theorem pollIntervals_waitLoop (maxP : ℚ) (timeout : Option ℚ) (pp : Bool) :
    ∀ (rs : List JobDetails) (j : Job) (pw total : ℚ), ∃ k,
      pollIntervals (JobPkg.waitLoop maxP timeout pp j pw total rs).1
        = (List.range k).map fun i => (fun w => nextPollWait w maxP)^[i] pw := by
  intro rs
  induction rs with
  | nil =>
    intro j pw total
    unfold JobPkg.waitLoop
    split
    · exact ⟨0, rfl⟩
    · split
      · exact ⟨0, rfl⟩
      · refine ⟨1, ?_⟩
        cases pp <;> simp [pollIntervals, pollIntervals_append]
  | cons d rest ih =>
    intro j pw total
    unfold JobPkg.waitLoop
    split
    · exact ⟨0, rfl⟩
    · split
      · exact ⟨0, rfl⟩
      · obtain ⟨k, hk⟩ := ih (j.refresh d) (nextPollWait pw maxP) (total + pw)
        refine ⟨k + 1, ?_⟩
        rcases hW : JobPkg.waitLoop maxP timeout pp (j.refresh d)
            (nextPollWait pw maxP) (total + pw) rest with ⟨evs', out⟩
        rw [hW] at hk
        simp only [hW]
        cases pp <;>
          simp [pollIntervals_append, pollIntervals, hk,
            List.range_succ_eq_map, Function.iterate_succ_apply,
            Function.comp] <;>
        · rw [← List.range_map_iterate]
          exact (List.map_congr_left fun i _ =>
            (Function.iterate_succ_apply (fun w => nextPollWait w maxP) i pw)).symm

/-- One backoff step of the interval sequence. -/
theorem pollWaitSeq_succ (maxP : ℚ) (n : ℕ) :
    pollWaitSeq maxP (n+1) = nextPollWait (pollWaitSeq maxP n) maxP := by
  simp [pollWaitSeq, Function.iterate_succ_apply']

/-- Poll intervals stay positive when the ceiling is positive. -/
theorem pollWaitSeq_pos (maxP : ℚ) (h : 0 < maxP) :
    ∀ n, 0 < pollWaitSeq maxP n := by
  intro n
  induction n with
  | zero => norm_num [pollWaitSeq]
  | succ n ih =>
    rw [pollWaitSeq_succ]
    unfold nextPollWait
    split
    · exact h
    · exact mul_pos ih (by norm_num)

/-- C2 amended: every execution's sleep durations are successive values of
the interval sequence from seed 0.2, whose recomputation is
`max_poll_wait_secs if poll_wait >= max_poll_wait_secs else poll_wait * 1.5`
(not `min(poll_wait * 1.5, max)`): while an interval is below the ceiling
the next one is exactly 1.5 times larger (so the sequence is non-decreasing
there), once an interval reaches the ceiling every later interval equals
the ceiling, and no interval ever exceeds `max_poll_wait_secs * 1.5` — a
single overshoot beyond the ceiling by up to 50% is possible. -/
theorem c2_amended_backoff (max_poll_wait_secs : ℚ)
    (hseed : (0.2 : ℚ) ≤ max_poll_wait_secs) :
    (∀ (timeout_secs : Option ℚ) (print_progress : Bool) (j : Job)
        (rs : List JobDetails), ∃ k,
        pollIntervals (JobPkg.wait_until_completed max_poll_wait_secs
            timeout_secs print_progress j rs).1
          = (List.range k).map (pollWaitSeq max_poll_wait_secs)) ∧
    (∀ n : ℕ,
        (pollWaitSeq max_poll_wait_secs n < max_poll_wait_secs →
          pollWaitSeq max_poll_wait_secs (n+1)
              = pollWaitSeq max_poll_wait_secs n * 1.5 ∧
            pollWaitSeq max_poll_wait_secs n
              ≤ pollWaitSeq max_poll_wait_secs (n+1)) ∧
        (max_poll_wait_secs ≤ pollWaitSeq max_poll_wait_secs n →
          pollWaitSeq max_poll_wait_secs (n+1) = max_poll_wait_secs) ∧
        pollWaitSeq max_poll_wait_secs n ≤ max_poll_wait_secs * 1.5) := by
  have hmax0 : (0 : ℚ) < max_poll_wait_secs := lt_of_lt_of_le (by norm_num) hseed
  constructor
  · intro timeout pp j rs
    cases rs with
    | nil => exact ⟨0, by simp [JobPkg.wait_until_completed, pollIntervals]⟩
    | cons d rest =>
      obtain ⟨k, hk⟩ := pollIntervals_waitLoop max_poll_wait_secs timeout pp
        rest (j.refresh d) 0.2 0
      refine ⟨k, ?_⟩
      unfold JobPkg.wait_until_completed
      rcases hW : JobPkg.waitLoop max_poll_wait_secs timeout pp (j.refresh d)
          0.2 0 rest with ⟨evs, out⟩
      rw [hW] at hk
      simp only [hW]
      calc pollIntervals ((Event.refresh :: evs, out).1)
          = pollIntervals evs := rfl
        _ = (List.range k).map (pollWaitSeq max_poll_wait_secs) := hk
  · intro n
    refine ⟨?_, ?_, ?_⟩
    · intro hlt
      rw [pollWaitSeq_succ]
      unfold nextPollWait
      rw [if_neg (not_le.mpr hlt)]
      exact ⟨rfl, by nlinarith [pollWaitSeq_pos max_poll_wait_secs hmax0 n]⟩
    · intro hge
      rw [pollWaitSeq_succ]
      unfold nextPollWait
      rw [if_pos hge]
    · cases n with
      | zero =>
        have h0 : pollWaitSeq max_poll_wait_secs 0 = 0.2 := rfl
        rw [h0]
        nlinarith
      | succ m =>
        rw [pollWaitSeq_succ]
        unfold nextPollWait
        split
        · nlinarith
        · rename_i h
          have hlt := lt_of_not_ge h
          nlinarith [pollWaitSeq_pos max_poll_wait_secs hmax0 m]

/-- Witness for the amended C2 at the default ceiling 30. -/
theorem c2_amended_witness :
    (∀ (timeout_secs : Option ℚ) (print_progress : Bool) (j : Job)
        (rs : List JobDetails), ∃ k,
        pollIntervals (JobPkg.wait_until_completed 30 timeout_secs
            print_progress j rs).1 = (List.range k).map (pollWaitSeq 30)) ∧
    (∀ n : ℕ,
        (pollWaitSeq 30 n < 30 →
          pollWaitSeq 30 (n+1) = pollWaitSeq 30 n * 1.5 ∧
            pollWaitSeq 30 n ≤ pollWaitSeq 30 (n+1)) ∧
        (30 ≤ pollWaitSeq 30 n → pollWaitSeq 30 (n+1) = 30) ∧
        pollWaitSeq 30 n ≤ 30 * 1.5) :=
  c2_amended_backoff 30 (by with_unfolding_all decide)
